import Mathlib

/-!
Verification of the Veo 3 prompt-generator app (src/src/App.js).

The embedding models the two operations of the component:
* `generatePrompt` (lines 44-110): template assembly (`promptText`), the
  HTTP request payload, the response handling (`handleResponse`) and the
  state-update trace (`generatePromptTrace`).
* `copyToClipboard` (lines 116-132): the DOM/notification event trace
  (`copyToClipboardTrace`).

JS strings are Lean `String`s; a possibly-`undefined` JS string value is
`Option String`.  JS string truthiness (empty and `undefined` are falsy)
is `jsTruthy` / the `jsOr` fallback operator.
-/

/-- The ten user-input state variables of the component (lines 6-15). -/
structure Inputs where
  sceneDescription : String
  subjectFocus : String
  cameraMovements : String
  visualStyle : String
  timeOfDay : String
  genre : String
  lightingConditions : String
  additionalKeywords : String
  textToSpeech : String
  videoFormat : String
deriving DecidableEq

/-- JS `s || fallback` on strings: the empty string is falsy. -/
def jsOr (s fallback : String) : String :=
  if s = "" then fallback else s

/-- JS truthiness of a possibly-undefined string value. -/
def jsTruthy (o : Option String) : Bool :=
  match o with
  | some s => !(s == "")
  | none => false

/-- The Text-to-Speech slot of the template: the ternary on line 63. -/
def ttsSlot (t : String) : String :=
  if t = "" then "No spoken dialogue specified."
  else "Integrate the following dialogue naturally into the video concept: \"" ++ (t ++ "\"")

/-- The template literal `promptText` of lines 52-69, with each `${...}`
interpolation substituted.  Concatenation is grouped to the right; the
string value is identical to the JS template. -/
def promptText (inp : Inputs) : String :=
  "Generate a highly creative, detailed, and visually rich text prompt for an AI video generator like Veo 3. The prompt should aim for maximum video quality and artistic expression, incorporating all specified elements.\n\n        Here are the inputs:\n        - Scene Description: " ++
  (jsOr inp.sceneDescription "A captivating and dynamic scene" ++
  ("\n        - Subject Focus: " ++
  (jsOr inp.subjectFocus "A central, engaging figure or object" ++
  ("\n        - Camera Movements: " ++
  (jsOr inp.cameraMovements "Sophisticated and fluid camera work (e.g., cinematic tracking shot, slow push-in, dynamic drone view)" ++
  ("\n        - Visual Style: " ++
  (jsOr inp.visualStyle "A visually stunning and coherent artistic style (e.g., hyperrealistic, fantastical, neo-noir, intricate anime)" ++
  ("\n        - Time of Day: " ++
  (inp.timeOfDay ++
  ("\n        - Genre: " ++
  (inp.genre ++
  ("\n        - Lighting Conditions: " ++
  (jsOr inp.lightingConditions "Artful and evocative lighting" ++
  ("\n        - Additional Keywords: " ++
  (jsOr inp.additionalKeywords "Incorporate rich textures, vibrant colors, atmospheric effects (e.g., volumetric fog, lens flares), detailed reflections, high fidelity, 8K, highly detailed, photorealistic render" ++
  ("\n        - Text-to-Speech: " ++
  (ttsSlot inp.textToSpeech ++
  ("\n        - Video Format: " ++
  (inp.videoFormat ++
  "\n\n        The final prompt should be a concise yet powerful single sentence or short paragraph, directly usable for a video generation model. It should focus on actionable visual and auditory elements, camera direction, and overall mood. Prioritize visual fidelity and artistic depth.\n\n        Example output format: \"A majestic golden dragon soaring gracefully through a swirling nebula, seen from a sweeping cinematic drone shot, in a fantastical and ethereal style. Time of Day: Night, Genre: Fantasy, Lighting: Dramatic. Incorporate glowing particles and shimmering stardust, 8K. Text-to-speech: 'Witness the ancient power!' Video Format: landscape.\"\n        ")))))))))))))))))))

/-- One part of a chat message in the request payload (line 74). -/
structure MsgPart where
  text : String
deriving DecidableEq

/-- One chat-history entry of the request payload (line 74). -/
structure ChatMessage where
  role : String
  parts : List MsgPart
deriving DecidableEq

/-- The JSON body of the POST request (line 77). -/
structure Payload where
  contents : List ChatMessage
deriving DecidableEq

/-- The API key constant (line 78): provided by the runtime, empty here. -/
def apiKey : String := ""

/-- The fixed endpoint URL (line 79). -/
def apiUrl : String :=
  "https://generativelanguage.googleapis.com/v1beta/models/gemini-2.0-flash:generateContent?key=" ++ apiKey

/-- The payload built on lines 73-77: the instruction string as the sole
user turn. -/
def requestPayload (p : String) : Payload :=
  { contents := [{ role := "user", parts := [{ text := p }] }] }

/-- A content part of an API response candidate; `text` may be absent. -/
structure RespPart where
  text : Option String
deriving DecidableEq

/-- The `content` object of a response candidate; `parts` may be absent. -/
structure RespContent where
  parts : Option (List RespPart)
deriving DecidableEq

/-- One candidate of the API response; `content` may be absent. -/
structure RespCandidate where
  content : Option RespContent
deriving DecidableEq

/-- A parsed JSON response body: the `candidates` list read on the success
path (line 96) and the `error.message` field read on the error path
(line 91), each possibly absent. -/
structure RespJson where
  candidates : Option (List RespCandidate)
  errorMessage : Option String
deriving DecidableEq

/-- Outcome of `await response.json()`: a parsed body, or a thrown parse
error carrying its message. -/
inductive ParseResult where
  | success (j : RespJson)
  | failure (errMsg : String)
deriving DecidableEq

/-- An HTTP response as observed by the code: `ok`, `status`,
`statusText` and the result of parsing the body as JSON. -/
structure HttpResponse where
  ok : Bool
  status : Nat
  statusText : String
  json : ParseResult
deriving DecidableEq

/-- How one submission settles: `succeeded t` models
`setGeneratedPrompt(text)` (the text may be `undefined`); `failed m`
models `setError(m)`. -/
inductive Settle where
  | succeeded (text : Option String)
  | failed (msg : String)
deriving DecidableEq

/-- The message set on line 102 when the response has no usable content. -/
def noValidMsg : String := "Failed to generate prompt: No valid content from API."

/-- `errorData?.error?.message || 'Unknown error'` (line 91): absent or
empty server message falls back to the fixed text. -/
def jsOrMsg : Option String → String
  | some s => if s = "" then "Unknown error" else s
  | none => "Unknown error"

/-- The thrown error message of line 91:
`API error: status statusText - serverMessage`. -/
def apiErrorMsg (status : Nat) (statusText : String) (em : Option String) : String :=
  "API error: " ++ (toString status ++ (" " ++ (statusText ++ (" - " ++ jsOrMsg em))))

/-- The success-path shape check and extraction of lines 96-103: the
guard chain `result.candidates && length > 0 && candidates[0].content &&
content.parts && parts.length > 0`, then `parts[0].text`. -/
def handleSuccess (j : RespJson) : Settle :=
  match j.candidates with
  | some (c :: _) =>
    match c.content with
    | some ct =>
      match ct.parts with
      | some (p :: _) => Settle.succeeded p.text
      | some [] => Settle.failed noValidMsg
      | none => Settle.failed noValidMsg
    | none => Settle.failed noValidMsg
  | some [] => Settle.failed noValidMsg
  | none => Settle.failed noValidMsg

/-- How the try/catch of lines 71-106 settles for a given response.
Non-ok responses throw the line-91 error, caught on line 104 and turned
into `setError('Error generating prompt: ' + err.message)`; a body-parse
error on either path reaches the same catch. -/
def handleResponse (r : HttpResponse) : Settle :=
  if r.ok then
    match r.json with
    | ParseResult.success j => handleSuccess j
    | ParseResult.failure m => Settle.failed ("Error generating prompt: " ++ m)
  else
    match r.json with
    | ParseResult.success j =>
      Settle.failed ("Error generating prompt: " ++ apiErrorMsg r.status r.statusText j.errorMessage)
    | ParseResult.failure m => Settle.failed ("Error generating prompt: " ++ m)

/-- The component state touched by `generatePrompt` (lines 18-21). -/
structure AppState where
  generatedPrompt : Option String
  error : String
  copyMessage : String
  isLoading : Bool
deriving DecidableEq

/-- Observable steps of one `generatePrompt` run: the four state setters
and the single `fetch` POST. -/
inductive AppEvent where
  | setPrompt (v : Option String)
  | setError (v : String)
  | setCopyMsg (v : String)
  | setLoading (b : Bool)
  | fetchPost (url : String) (body : Payload)
deriving DecidableEq

/-- Effect of one event on the component state; the fetch itself does not
change the modelled state. -/
def applyEvent (s : AppState) : AppEvent → AppState
  | AppEvent.setPrompt v => { s with generatedPrompt := v }
  | AppEvent.setError v => { s with error := v }
  | AppEvent.setCopyMsg v => { s with copyMessage := v }
  | AppEvent.setLoading b => { s with isLoading := b }
  | AppEvent.fetchPost _ _ => s

/-- The settling step: line 100 on the happy path, line 102 or line 106
on the failure paths. -/
def settleEvents (r : HttpResponse) : List AppEvent :=
  match handleResponse r with
  | Settle.succeeded t => [AppEvent.setPrompt t]
  | Settle.failed m => [AppEvent.setError m]

/-- The full event trace of one `generatePrompt` call (lines 44-110):
clear previous prompt, error and copy message, raise the loading flag,
issue the POST, settle, and finally lower the loading flag. -/
def generatePromptTrace (inp : Inputs) (r : HttpResponse) : List AppEvent :=
  [AppEvent.setPrompt (some ""), AppEvent.setError "", AppEvent.setCopyMsg "",
   AppEvent.setLoading true,
   AppEvent.fetchPost apiUrl (requestPayload (promptText inp))]
  ++ settleEvents r
  ++ [AppEvent.setLoading false]

/-- Run a trace from a state. -/
def runTrace (s : AppState) : List AppEvent → AppState
  | [] => s
  | e :: es => runTrace (applyEvent s e) es

/-- All intermediate states of a trace, the initial and final ones
included. -/
def statesAlong (s : AppState) : List AppEvent → List AppState
  | [] => [s]
  | e :: es => s :: statesAlong (applyEvent s e) es

/-- Does an event issue the HTTP request? -/
def isFetchEvent : AppEvent → Bool
  | AppEvent.fetchPost _ _ => true
  | _ => false

/-- Observable steps of one `copyToClipboard` run (lines 116-132). -/
inductive CopyEvent where
  | appendChild
  | selectText
  | execCopy
  | removeChild
  | setCopyMsg (v : String)
  | scheduleClear (delayMs : Nat)
deriving DecidableEq

/-- The event trace of one `copyToClipboard` call, parameterised by the
current `generatedPrompt` value and by whether `document.execCommand`
throws.  On a throw, control jumps to the catch block (line 127) before
the `removeChild` of line 124 runs, and no timeout is scheduled. -/
def copyToClipboardTrace (generatedPrompt : Option String) (execThrows : Bool) :
    List CopyEvent :=
  if jsTruthy generatedPrompt then
    if execThrows then
      [CopyEvent.appendChild, CopyEvent.selectText, CopyEvent.execCopy,
       CopyEvent.setCopyMsg "Gagal menyalin prompt."]
    else
      [CopyEvent.appendChild, CopyEvent.selectText, CopyEvent.execCopy,
       CopyEvent.removeChild, CopyEvent.setCopyMsg "Prompt disalin!",
       CopyEvent.scheduleClear 3000]
  else []

/-- Number of temporary elements in `document.body` after a copy trace,
starting from `n`. -/
def bodyCountAfter (n : Nat) (es : List CopyEvent) : Nat :=
  es.foldl
    (fun k e =>
      match e with
      | CopyEvent.appendChild => k + 1
      | CopyEvent.removeChild => k - 1
      | _ => k) n

/-- Does an event schedule a delayed notification clear? -/
def isScheduleClear : CopyEvent → Bool
  | CopyEvent.scheduleClear _ => true
  | _ => false

/-- `v` occurs verbatim as a contiguous substring of `t`. -/
def containsStr (t v : String) : Prop :=
  ∃ a b : String, t = a ++ v ++ b

/-- A default-valued input record used to build concrete test inputs. -/
def sampleInputs : Inputs :=
  { sceneDescription := "", subjectFocus := "", cameraMovements := "",
    visualStyle := "", timeOfDay := "Day", genre := "Sci-fi",
    lightingConditions := "Soft", additionalKeywords := "",
    textToSpeech := "", videoFormat := "landscape" }

/-- An HTTP success response whose first candidate's first content part
has no `text` field. -/
def respNoTextPart : HttpResponse :=
  { ok := true, status := 200, statusText := "OK",
    json := ParseResult.success
      { candidates := some [{ content := some { parts := some [{ text := none }] } }],
        errorMessage := none } }

theorem containsStr_head (v b : String) : containsStr (v ++ b) v :=
  ⟨"", b, by rw [String.empty_append]⟩

theorem containsStr_self (v : String) : containsStr v v :=
  ⟨"", "", by rw [String.empty_append, String.append_empty]⟩

theorem containsStr_cons (a : String) {t v : String} (h : containsStr t v) :
    containsStr (a ++ t) v := by
  obtain ⟨x, y, hx⟩ := h
  exact ⟨a ++ x, y, by simp [hx, String.append_assoc]⟩

theorem containsStr_tail (b : String) {t v : String} (h : containsStr t v) :
    containsStr (t ++ b) v := by
  obtain ⟨x, y, hx⟩ := h
  exact ⟨x, y ++ b, by simp [hx, String.append_assoc]⟩

/-- C1: for every assignment of the ten fields, the instruction string
built by `generatePrompt` contains, for each free-text field, the field's
exact value verbatim when it is non-empty, and that field's documented
fallback phrase when it is empty. -/
theorem veo_C1 (inp : Inputs) :
    ((inp.sceneDescription ≠ "" → containsStr (promptText inp) inp.sceneDescription)
      ∧ (inp.sceneDescription = "" →
          containsStr (promptText inp) "A captivating and dynamic scene"))
  ∧ ((inp.subjectFocus ≠ "" → containsStr (promptText inp) inp.subjectFocus)
      ∧ (inp.subjectFocus = "" →
          containsStr (promptText inp) "A central, engaging figure or object"))
  ∧ ((inp.cameraMovements ≠ "" → containsStr (promptText inp) inp.cameraMovements)
      ∧ (inp.cameraMovements = "" →
          containsStr (promptText inp)
            "Sophisticated and fluid camera work (e.g., cinematic tracking shot, slow push-in, dynamic drone view)"))
  ∧ ((inp.visualStyle ≠ "" → containsStr (promptText inp) inp.visualStyle)
      ∧ (inp.visualStyle = "" →
          containsStr (promptText inp)
            "A visually stunning and coherent artistic style (e.g., hyperrealistic, fantastical, neo-noir, intricate anime)"))
  ∧ ((inp.lightingConditions ≠ "" → containsStr (promptText inp) inp.lightingConditions)
      ∧ (inp.lightingConditions = "" →
          containsStr (promptText inp) "Artful and evocative lighting"))
  ∧ ((inp.additionalKeywords ≠ "" → containsStr (promptText inp) inp.additionalKeywords)
      ∧ (inp.additionalKeywords = "" →
          containsStr (promptText inp)
            "Incorporate rich textures, vibrant colors, atmospheric effects (e.g., volumetric fog, lens flares), detailed reflections, high fidelity, 8K, highly detailed, photorealistic render"))
  ∧ ((inp.textToSpeech ≠ "" → containsStr (promptText inp) inp.textToSpeech)
      ∧ (inp.textToSpeech = "" →
          containsStr (promptText inp) "No spoken dialogue specified.")) := by
  refine ⟨⟨?_, ?_⟩, ⟨?_, ?_⟩, ⟨?_, ?_⟩, ⟨?_, ?_⟩, ⟨?_, ?_⟩, ⟨?_, ?_⟩, ?_, ?_⟩
  · intro h
    simp only [promptText, jsOr, if_neg h]
    iterate 1 apply containsStr_cons
    exact containsStr_head _ _
  · intro h
    simp only [promptText, jsOr, if_pos h]
    iterate 1 apply containsStr_cons
    exact containsStr_head _ _
  · intro h
    simp only [promptText, jsOr, if_neg h]
    iterate 3 apply containsStr_cons
    exact containsStr_head _ _
  · intro h
    simp only [promptText, jsOr, if_pos h]
    iterate 3 apply containsStr_cons
    exact containsStr_head _ _
  · intro h
    simp only [promptText, jsOr, if_neg h]
    iterate 5 apply containsStr_cons
    exact containsStr_head _ _
  · intro h
    simp only [promptText, jsOr, if_pos h]
    iterate 5 apply containsStr_cons
    exact containsStr_head _ _
  · intro h
    simp only [promptText, jsOr, if_neg h]
    iterate 7 apply containsStr_cons
    exact containsStr_head _ _
  · intro h
    simp only [promptText, jsOr, if_pos h]
    iterate 7 apply containsStr_cons
    exact containsStr_head _ _
  · intro h
    simp only [promptText, jsOr, if_neg h]
    iterate 13 apply containsStr_cons
    exact containsStr_head _ _
  · intro h
    simp only [promptText, jsOr, if_pos h]
    iterate 13 apply containsStr_cons
    exact containsStr_head _ _
  · intro h
    simp only [promptText, jsOr, if_neg h]
    iterate 15 apply containsStr_cons
    exact containsStr_head _ _
  · intro h
    simp only [promptText, jsOr, if_pos h]
    iterate 15 apply containsStr_cons
    exact containsStr_head _ _
  · intro h
    simp only [promptText, ttsSlot, if_neg h]
    iterate 17 apply containsStr_cons
    apply containsStr_tail
    apply containsStr_cons
    exact containsStr_head _ _
  · intro h
    simp only [promptText, ttsSlot, if_pos h]
    iterate 17 apply containsStr_cons
    exact containsStr_head _ _

/-- Witness for C1 at concrete inputs: a non-empty scene description
appears verbatim, and an empty one yields its fallback phrase. -/
theorem veo_C1_witness :
    containsStr (promptText { sampleInputs with sceneDescription := "ocean waves" }) "ocean waves"
    ∧ containsStr (promptText sampleInputs) "A captivating and dynamic scene" :=
  ⟨(veo_C1 { sampleInputs with sceneDescription := "ocean waves" }).1.1 (by decide),
   (veo_C1 sampleInputs).1.2 rfl⟩

/-- C5: with `textToSpeech` empty the instruction contains the fixed
no-dialogue phrase; with it non-empty the instruction contains the
wrapping sentence quoting the exact dialogue. -/
theorem veo_C5 (inp : Inputs) :
    (inp.textToSpeech = "" →
      containsStr (promptText inp) "No spoken dialogue specified.")
  ∧ (inp.textToSpeech ≠ "" →
      containsStr (promptText inp)
        ("Integrate the following dialogue naturally into the video concept: \""
          ++ (inp.textToSpeech ++ "\""))) := by
  constructor
  · intro h
    simp only [promptText, ttsSlot, if_pos h]
    iterate 17 apply containsStr_cons
    exact containsStr_head _ _
  · intro h
    simp only [promptText, ttsSlot, if_neg h]
    iterate 17 apply containsStr_cons
    exact containsStr_head _ _

/-- Witness for C5 at concrete inputs: the empty case shows the fixed
phrase; `textToSpeech = "Hello"` shows the quoted wrapping. -/
theorem veo_C5_witness :
    containsStr (promptText sampleInputs) "No spoken dialogue specified."
    ∧ containsStr (promptText { sampleInputs with textToSpeech := "Hello" })
        ("Integrate the following dialogue naturally into the video concept: \""
          ++ ("Hello" ++ "\"")) :=
  ⟨(veo_C5 sampleInputs).1 rfl,
   (veo_C5 { sampleInputs with textToSpeech := "Hello" }).2 (by decide)⟩

/-- C2 counterexample: on an HTTP success whose first candidate's first
content part has no `text` field, the code takes the Succeeded branch
(holding an absent text), not the Failed branch with the no-valid-content
message that the claim requires. -/
theorem veo_C2_cex :
    handleResponse respNoTextPart = Settle.succeeded none
    ∧ handleResponse respNoTextPart
        ≠ Settle.failed "Failed to generate prompt: No valid content from API." := by
  constructor
  · rfl
  · intro h
    exact Settle.noConfusion h

/-- C2 amended: on an HTTP success, the guard only checks that the first
candidate's first content part exists; when it does, the status becomes
Succeeded holding that part's `text` field (possibly absent), and the
Failed branch with the no-valid-content message is taken exactly when the
candidates list is missing or empty, the first candidate lacks `content`,
or its `parts` list is missing or empty. -/
theorem veo_C2_amended (j : RespJson) (status : Nat) (st : String) :
    handleResponse { ok := true, status := status, statusText := st,
                     json := ParseResult.success j } = handleSuccess j
    ∧ (∀ c cs ct p ps, j.candidates = some (c :: cs) → c.content = some ct →
        ct.parts = some (p :: ps) → handleSuccess j = Settle.succeeded p.text)
    ∧ ((j.candidates = none ∨ j.candidates = some []
        ∨ (∃ c cs, j.candidates = some (c :: cs)
            ∧ (c.content = none
                ∨ ∃ ct, c.content = some ct
                    ∧ (ct.parts = none ∨ ct.parts = some [])))) →
        handleSuccess j = Settle.failed noValidMsg) := by
  refine ⟨rfl, ?_, ?_⟩
  · intro c cs ct p ps hc hct hp
    simp [handleSuccess, hc, hct, hp]
  · rintro (hc | hc | ⟨c, cs, hc, hct | ⟨ct, hct, hp | hp⟩⟩)
    · simp [handleSuccess, hc]
    · simp [handleSuccess, hc]
    · simp [handleSuccess, hc, hct]
    · simp [handleSuccess, hc, hct, hp]
    · simp [handleSuccess, hc, hct, hp]

/-- Witness for C2's amended theorem at concrete responses: a response
with a text part succeeds with that text, and a response with an empty
candidates list fails with the no-valid-content message. -/
theorem veo_C2_witness :
    handleSuccess
      { candidates := some [{ content := some { parts := some [{ text := some "hi" }] } }],
        errorMessage := none } = Settle.succeeded (some "hi")
    ∧ handleSuccess { candidates := some [], errorMessage := none }
        = Settle.failed noValidMsg :=
  ⟨(veo_C2_amended
      { candidates := some [{ content := some { parts := some [{ text := some "hi" }] } }],
        errorMessage := none } 200 "OK").2.1 _ _ _ _ _ rfl rfl rfl,
   (veo_C2_amended { candidates := some [], errorMessage := none } 200 "OK").2.2
      (Or.inr (Or.inl rfl))⟩

/-- C3: on every HTTP non-success response, the run settles in Failed
with a message combining the status code, the status text and the
server-supplied error message; when parsing the error body itself throws,
the thrown message reaches the same Failed path. -/
theorem veo_C3 (r : HttpResponse) (h : r.ok = false) :
    (∀ j, r.json = ParseResult.success j →
      handleResponse r
          = Settle.failed
              ("Error generating prompt: " ++ apiErrorMsg r.status r.statusText j.errorMessage)
        ∧ containsStr
            ("Error generating prompt: " ++ apiErrorMsg r.status r.statusText j.errorMessage)
            (toString r.status)
        ∧ containsStr
            ("Error generating prompt: " ++ apiErrorMsg r.status r.statusText j.errorMessage)
            r.statusText
        ∧ (∀ em, j.errorMessage = some em → em ≠ "" →
            containsStr
              ("Error generating prompt: " ++ apiErrorMsg r.status r.statusText j.errorMessage)
              em))
    ∧ (∀ m, r.json = ParseResult.failure m →
        handleResponse r = Settle.failed ("Error generating prompt: " ++ m)) := by
  constructor
  · intro j hj
    refine ⟨by simp [handleResponse, h, hj], ?_, ?_, ?_⟩
    · simp only [apiErrorMsg]
      iterate 2 apply containsStr_cons
      exact containsStr_head _ _
    · simp only [apiErrorMsg]
      iterate 4 apply containsStr_cons
      exact containsStr_head _ _
    · intro em hem hne
      simp only [apiErrorMsg, jsOrMsg, hem, if_neg hne]
      iterate 6 apply containsStr_cons
      exact containsStr_self _
  · intro m hm
    simp [handleResponse, h, hm]

/-- Witness for C3 at the documented concrete input: a 500 response with
body error message "server down" settles in Failed with a message
containing "500" and "server down". -/
theorem veo_C3_witness :
    handleResponse
        { ok := false, status := 500, statusText := "Internal Server Error",
          json := ParseResult.success { candidates := none, errorMessage := some "server down" } }
      = Settle.failed
          ("Error generating prompt: "
            ++ apiErrorMsg 500 "Internal Server Error" (some "server down"))
    ∧ containsStr
        ("Error generating prompt: " ++ apiErrorMsg 500 "Internal Server Error" (some "server down"))
        (toString 500)
    ∧ containsStr
        ("Error generating prompt: " ++ apiErrorMsg 500 "Internal Server Error" (some "server down"))
        "server down" := by
  have h := veo_C3
    { ok := false, status := 500, statusText := "Internal Server Error",
      json := ParseResult.success { candidates := none, errorMessage := some "server down" } }
    rfl
  obtain ⟨h1, h2, h3, h4⟩ := h.1 _ rfl
  exact ⟨h1, h2, h4 "server down" rfl (by decide)⟩

/-- C10: an HTTP non-success response whose body parses as JSON without
an `error.message` field settles in Failed with a message that states the
status code and status text and ends with the fixed "Unknown error"
fallback. -/
theorem veo_C10 (r : HttpResponse) (j : RespJson) (h : r.ok = false)
    (hj : r.json = ParseResult.success j) (he : j.errorMessage = none) :
    handleResponse r
      = Settle.failed
          ("Error generating prompt: "
            ++ ("API error: "
              ++ (toString r.status ++ (" " ++ (r.statusText ++ (" - " ++ "Unknown error"))))))
    ∧ ∃ a,
        ("Error generating prompt: "
          ++ ("API error: "
            ++ (toString r.status ++ (" " ++ (r.statusText ++ (" - " ++ "Unknown error"))))))
          = a ++ "Unknown error" := by
  constructor
  · simp [handleResponse, h, hj, apiErrorMsg, jsOrMsg, he]
  · exact ⟨"Error generating prompt: "
      ++ ("API error: " ++ (toString r.status ++ (" " ++ (r.statusText ++ " - ")))),
      by simp [String.append_assoc]⟩

/-- Witness for C10 at a concrete 404 response with a body that has no
error message field. -/
theorem veo_C10_witness :
    handleResponse
        { ok := false, status := 404, statusText := "Not Found",
          json := ParseResult.success { candidates := none, errorMessage := none } }
      = Settle.failed
          ("Error generating prompt: "
            ++ ("API error: "
              ++ (toString 404 ++ (" " ++ ("Not Found" ++ (" - " ++ "Unknown error"))))))
    ∧ ∃ a,
        ("Error generating prompt: "
          ++ ("API error: "
            ++ (toString 404 ++ (" " ++ ("Not Found" ++ (" - " ++ "Unknown error"))))))
          = a ++ "Unknown error" :=
  veo_C10
    { ok := false, status := 404, statusText := "Not Found",
      json := ParseResult.success { candidates := none, errorMessage := none } }
    { candidates := none, errorMessage := none } rfl rfl rfl

/-- C4: in every `generatePrompt` run the loading flag is raised strictly
before the POST is issued, the trace ends by lowering it, and — starting
from a state at rest — the flag is true exactly at the states strictly
between submission start and that submission's settlement. -/
theorem veo_C4 (inp : Inputs) (r : HttpResponse) (s : AppState)
    (h : s.isLoading = false) :
    (∃ e, generatePromptTrace inp r
        = [AppEvent.setPrompt (some ""), AppEvent.setError "", AppEvent.setCopyMsg "",
           AppEvent.setLoading true,
           AppEvent.fetchPost apiUrl (requestPayload (promptText inp)),
           e, AppEvent.setLoading false])
    ∧ (statesAlong s (generatePromptTrace inp r)).map AppState.isLoading
        = [false, false, false, false, true, true, true, false] := by
  cases hr : handleResponse r with
  | succeeded t =>
    exact ⟨⟨AppEvent.setPrompt t, by simp [generatePromptTrace, settleEvents, hr]⟩,
      by simp [generatePromptTrace, settleEvents, hr, statesAlong, applyEvent, h]⟩
  | failed m =>
    exact ⟨⟨AppEvent.setError m, by simp [generatePromptTrace, settleEvents, hr]⟩,
      by simp [generatePromptTrace, settleEvents, hr, statesAlong, applyEvent, h]⟩

/-- Witness for C4 at a concrete run from the initial component state. -/
theorem veo_C4_witness :
    (statesAlong
        { generatedPrompt := some "", error := "", copyMessage := "", isLoading := false }
        (generatePromptTrace sampleInputs
          { ok := true, status := 200, statusText := "OK",
            json := ParseResult.success
              { candidates := some [{ content := some { parts := some [{ text := some "hi" }] } }],
                errorMessage := none } })).map AppState.isLoading
      = [false, false, false, false, true, true, true, false] :=
  (veo_C4 sampleInputs
    { ok := true, status := 200, statusText := "OK",
      json := ParseResult.success
        { candidates := some [{ content := some { parts := some [{ text := some "hi" }] } }],
          errorMessage := none } }
    { generatedPrompt := some "", error := "", copyMessage := "", isLoading := false }
    rfl).2

/-- C8: every submission issues exactly one POST, to the fixed endpoint,
whose body holds the assembled instruction as the sole user turn. -/
theorem veo_C8 (inp : Inputs) (r : HttpResponse) :
    (generatePromptTrace inp r).filter isFetchEvent
      = [AppEvent.fetchPost apiUrl (requestPayload (promptText inp))]
    ∧ requestPayload (promptText inp)
      = { contents := [{ role := "user", parts := [{ text := promptText inp }] }] } := by
  cases hr : handleResponse r with
  | succeeded t =>
    exact ⟨by simp [generatePromptTrace, settleEvents, hr, List.filter, isFetchEvent], rfl⟩
  | failed m =>
    exact ⟨by simp [generatePromptTrace, settleEvents, hr, List.filter, isFetchEvent], rfl⟩

/-- C9: every run first clears the previous prompt, error and copy
notification before raising the loading flag, and after settlement the
displayed prompt and the error message are never both non-empty. -/
theorem veo_C9 (inp : Inputs) (r : HttpResponse) (s : AppState) :
    (generatePromptTrace inp r).take 4
      = [AppEvent.setPrompt (some ""), AppEvent.setError "", AppEvent.setCopyMsg "",
         AppEvent.setLoading true]
    ∧ ¬(jsTruthy (runTrace s (generatePromptTrace inp r)).generatedPrompt = true
        ∧ (runTrace s (generatePromptTrace inp r)).error ≠ "") := by
  constructor
  · cases hr : handleResponse r with
    | succeeded t => simp [generatePromptTrace, settleEvents, hr]
    | failed m => simp [generatePromptTrace, settleEvents, hr]
  · cases hr : handleResponse r with
    | succeeded t =>
      simp [generatePromptTrace, settleEvents, hr, runTrace, applyEvent]
    | failed m =>
      simp [generatePromptTrace, settleEvents, hr, runTrace, applyEvent, jsTruthy]

/-- C6 counterexample: when `document.execCommand` throws, control jumps
to the catch block before the `removeChild` of line 124 runs, so the
temporary element stays in the document body — the body is not left
unchanged as the claim requires. -/
theorem veo_C6_cex :
    bodyCountAfter 0 (copyToClipboardTrace (some "x") true) = 1
    ∧ bodyCountAfter 0 (copyToClipboardTrace (some "x") true) ≠ 0 := by
  decide

/-- C6 amended: the temporary element is removed (body count unchanged)
when the copy command returns normally; when the copy command throws, the
element is not removed and one extra element remains in the body. -/
theorem veo_C6_amended (g : Option String) :
    (∀ n, bodyCountAfter n (copyToClipboardTrace g false) = n)
    ∧ (jsTruthy g = true →
        ∀ n, bodyCountAfter n (copyToClipboardTrace g true) = n + 1) := by
  constructor
  · intro n
    cases hg : jsTruthy g <;> simp [copyToClipboardTrace, hg, bodyCountAfter]
  · intro hg n
    simp [copyToClipboardTrace, hg, bodyCountAfter]

/-- Witness for C6's amended theorem at a concrete non-empty prompt. -/
theorem veo_C6_witness :
    bodyCountAfter 0 (copyToClipboardTrace (some "x") false) = 0
    ∧ bodyCountAfter 0 (copyToClipboardTrace (some "x") true) = 0 + 1 :=
  ⟨(veo_C6_amended (some "x")).1 0, (veo_C6_amended (some "x")).2 (by decide) 0⟩

/-- C7 counterexample: when the copy command throws, the failure
notification "Gagal menyalin prompt." is set but no delayed clear is
scheduled, so it is not cleared after the 3-second delay the claim
requires for every notification. -/
theorem veo_C7_cex :
    (copyToClipboardTrace (some "x") true).contains
        (CopyEvent.setCopyMsg "Gagal menyalin prompt.") = true
    ∧ (copyToClipboardTrace (some "x") true).any isScheduleClear = false := by
  decide

/-- C7 amended: the success notification is scheduled to clear after the
fixed 3-second delay, while the failure notification is set without any
scheduled clear and therefore persists. -/
theorem veo_C7_amended (g : Option String) (h : jsTruthy g = true) :
    copyToClipboardTrace g false
      = [CopyEvent.appendChild, CopyEvent.selectText, CopyEvent.execCopy,
         CopyEvent.removeChild, CopyEvent.setCopyMsg "Prompt disalin!",
         CopyEvent.scheduleClear 3000]
    ∧ (copyToClipboardTrace g true).any isScheduleClear = false := by
  constructor <;> simp [copyToClipboardTrace, h, isScheduleClear]

/-- Witness for C7's amended theorem at a concrete non-empty prompt. -/
theorem veo_C7_witness :
    copyToClipboardTrace (some "x") false
      = [CopyEvent.appendChild, CopyEvent.selectText, CopyEvent.execCopy,
         CopyEvent.removeChild, CopyEvent.setCopyMsg "Prompt disalin!",
         CopyEvent.scheduleClear 3000]
    ∧ (copyToClipboardTrace (some "x") true).any isScheduleClear = false :=
  veo_C7_amended (some "x") (by decide)
